import Mathlib

/-!
# ngstd::SharedLibrary (src/ngstd/ngs_utils.cpp)

A shallow embedding of the RAII wrapper around the native module loader
(`dlopen`/`dlsym`/`dlclose` on POSIX, `LoadLibrary`/`GetProcAddress`/
`FreeLibrary` under `WIN32`), followed by theorems about it.

Modelling conventions

* Pointers and handles are natural numbers; `0` is `nullptr`.
* The operating system is an arbitrary state machine `OS σ`: every native
  call takes the current OS state and returns its result together with the
  next OS state.  Nothing is assumed about what the OS answers.
* Every native call made by the code is appended to `World.calls`, and the
  text written to `std::cerr` is appended to `World.cerr`.
* The `#ifdef WIN32` switch is the boolean parameter `win32`.
* A C++ function is a function from the object and the world to an
  `Outcome`: the value returned or the exception thrown, together with
  the object and the world as the call left them.
* The text of an exception is what `what()` yields, a C string: it ends at
  the first NUL of the `std::string` the exception was built from.
* `dlerror()` may answer a null pointer; the source hands its answer to
  `std::runtime_error` untested, and `Thrown.null_message` is what leaves
  the function then.
-/

namespace ngstd

/-! ## Data model -/

/-- The second argument of `dlopen`; the source passes `RTLD_NOW` only. -/
inductive DlFlag where
  | RTLD_NOW
  deriving DecidableEq, Repr

/-- One native call as issued by the code, with the result it got back. -/
inductive Call where
  | dlopen (file : String) (flag : DlFlag) (result : Nat)
  | dlclose (handle : Nat) (rc : Int)
  | dlsym (handle : Nat) (symbol : String) (result : Nat)
  | dlerror (text : Option String)
  | LoadLibrary (file : String) (result : Nat)
  | FreeLibrary (handle : Nat) (ok : Bool)
  | GetProcAddress (handle : Nat) (symbol : String) (result : Nat)
  | remove_all (dir : String) (threw : Bool)
  deriving DecidableEq, Repr

/-- The native interface the code calls into, over an OS state `σ`.
`remove_all` answers `some msg` when `filesystem::remove_all` throws.
`dlerror` answers `some text`, or `none` for the null pointer it returns
when no error is pending (as after a `dlsym` that found a symbol whose
value is null). -/
structure OS (σ : Type) where
  dlopen : σ → String → DlFlag → Nat × σ
  dlclose : σ → Nat → Int × σ
  dlsym : σ → Nat → String → Nat × σ
  dlerror : σ → Option String × σ
  LoadLibrary : σ → String → Nat × σ
  FreeLibrary : σ → Nat → Bool × σ
  GetProcAddress : σ → Nat → String → Nat × σ
  remove_all : σ → String → Option String × σ

/-- Everything outside the object: OS state, the native calls made so far
and the text written to `cerr` so far. -/
structure World (σ : Type) where
  os : σ
  calls : List Call
  cerr : String

/-- Modelled from the spec: the class declaration of `SharedLibrary` lives in
a header that is not among the sources; the spec's data model gives the
three members the member functions read and write: the path `lib_name`,
the optional `directory_to_delete`, and the native handle `lib`, null
(`0`) when no library is loaded. -/
structure SharedLibrary where
  lib_name : String
  directory_to_delete : Option String
  lib : Nat
  deriving DecidableEq, Repr

/-- An exception leaving a member function. -/
inductive Thrown where
  /-- A `std::runtime_error`; `what` is the text its `what()` yields. -/
  | runtime_error (what : String)
  /-- The outcome of `std::runtime_error(p)` for a null `p`: the message
  cannot be built (libstdc++ raises `std::logic_error` from the string
  constructor), and what leaves the function holds no text of the caller. -/
  | null_message
  /-- A `filesystem_error` with this text left the destructor, which ends
  the process through `std::terminate`. -/
  | terminate (what : String)
  deriving DecidableEq, Repr

/-- What a member function leaves behind: `result` is `.ok v` when it
returns `v` and `.error e` when `e` leaves it. -/
structure Outcome (σ : Type) (α : Type) where
  result : Except Thrown α
  self : SharedLibrary
  world : World σ

/-! ## Standard-library helpers used by the source -/

/-- The text of `s.c_str()` as a C function reads it: the characters before
the first NUL. -/
def c_str (s : String) : String :=
  String.mk (s.data.takeWhile (fun c => c != Char.ofNat 0))

/-- `std::runtime_error(msg)` for a `std::string` `msg`: `what()` yields
`msg.c_str()`, which a reader follows up to the first NUL. -/
def runtime_error_string (msg : String) : Thrown :=
  Thrown.runtime_error (c_str msg)

/-- `std::runtime_error(p)` for the `char*` `p` that `dlerror()` answered. -/
def runtime_error_c_str : Option String → Thrown
  | some text => Thrown.runtime_error (c_str text)
  | none => Thrown.null_message

/-- Body of `std::quoted`: delimiter and escape character are preceded by
the escape character (`"` is 34, `\` is 92). -/
def quotedBody : List Char → List Char
  | [] => []
  | c :: cs =>
    if c = Char.ofNat 34 ∨ c = Char.ofNat 92 then
      Char.ofNat 92 :: c :: quotedBody cs
    else
      c :: quotedBody cs

/-- The text `os << p` writes for a `filesystem::path` `p`: the path between
double quotes, as `std::quoted` renders it. -/
def quoted (p : String) : String :=
  String.mk (Char.ofNat 34 :: quotedBody p.data ++ [Char.ofNat 34])

/-! ## Member functions -/

namespace SharedLibrary

variable {σ : Type}

/-- `void SharedLibrary::Unload()`. -/
def Unload (win32 : Bool) (P : OS σ) (self : SharedLibrary) (w : World σ) :
    Outcome σ Unit :=
  if self.lib ≠ 0 then
    if win32 then
      let r := P.FreeLibrary w.os self.lib
      Outcome.mk (.ok ()) self
        (World.mk r.2 (w.calls ++ [Call.FreeLibrary self.lib r.1]) w.cerr)
    else
      let r := P.dlclose w.os self.lib
      let calls := w.calls ++ [Call.dlclose self.lib r.1]
      if r.1 ≠ 0 then
        Outcome.mk (.ok ()) self
          (World.mk r.2 calls
            (w.cerr ++ "Failed to close library " ++ quoted self.lib_name ++ "\n"))
      else
        Outcome.mk (.ok ()) self (World.mk r.2 calls w.cerr)
  else
    Outcome.mk (.ok ()) self w

/-- `void SharedLibrary::Load(const filesystem::path & lib_name_)`. -/
def Load (win32 : Bool) (P : OS σ) (self : SharedLibrary) (lib_name_ : String)
    (w : World σ) : Outcome σ Unit :=
  let u := Unload win32 P self w
  match u.result with
  | .error e => Outcome.mk (.error e) u.self u.world
  | .ok _ =>
    let s1 := SharedLibrary.mk lib_name_ u.self.directory_to_delete u.self.lib
    if win32 then
      let r := P.LoadLibrary u.world.os (c_str s1.lib_name)
      let s2 := SharedLibrary.mk s1.lib_name s1.directory_to_delete r.1
      let w2 := World.mk r.2
        (u.world.calls ++ [Call.LoadLibrary (c_str s1.lib_name) r.1]) u.world.cerr
      if s2.lib = 0 then
        Outcome.mk
          (.error (runtime_error_string ("Could not load library " ++ s2.lib_name)))
          s2 w2
      else
        Outcome.mk (.ok ()) s2 w2
    else
      let r := P.dlopen u.world.os (c_str s1.lib_name) DlFlag.RTLD_NOW
      let s2 := SharedLibrary.mk s1.lib_name s1.directory_to_delete r.1
      let w2 := World.mk r.2
        (u.world.calls ++ [Call.dlopen (c_str s1.lib_name) DlFlag.RTLD_NOW r.1])
        u.world.cerr
      if s2.lib = 0 then
        let e := P.dlerror w2.os
        Outcome.mk (.error (runtime_error_c_str e.1)) s2
          (World.mk e.2 (w2.calls ++ [Call.dlerror e.1]) w2.cerr)
      else
        Outcome.mk (.ok ()) s2 w2

/-- `void* SharedLibrary::GetRawFunction(string func_name)`. -/
def GetRawFunction (win32 : Bool) (P : OS σ) (self : SharedLibrary)
    (func_name : String) (w : World σ) : Outcome σ Nat :=
  if win32 then
    let r := P.GetProcAddress w.os self.lib (c_str func_name)
    let w1 := World.mk r.2
      (w.calls ++ [Call.GetProcAddress self.lib (c_str func_name) r.1]) w.cerr
    if r.1 = 0 then
      Outcome.mk
        (.error (runtime_error_string
          ("Could not find function " ++ func_name ++ " in library " ++ self.lib_name)))
        self w1
    else
      Outcome.mk (.ok r.1) self w1
  else
    let r := P.dlsym w.os self.lib (c_str func_name)
    let w1 := World.mk r.2
      (w.calls ++ [Call.dlsym self.lib (c_str func_name) r.1]) w.cerr
    if r.1 = 0 then
      let e := P.dlerror w1.os
      Outcome.mk (.error (runtime_error_c_str e.1)) self
        (World.mk e.2 (w1.calls ++ [Call.dlerror e.1]) w1.cerr)
    else
      Outcome.mk (.ok r.1) self w1

/-- `SharedLibrary::~SharedLibrary()`.  A throwing `remove_all` leaves the
destructor and ends the process: `.error (Thrown.terminate msg)`. -/
def dtor (win32 : Bool) (P : OS σ) (self : SharedLibrary) (w : World σ) :
    Outcome σ Unit :=
  let u := Unload win32 P self w
  match u.result with
  | .error e => Outcome.mk (.error e) u.self u.world
  | .ok _ =>
    match u.self.directory_to_delete with
    | some d =>
      let r := P.remove_all u.world.os d
      let w1 := World.mk r.2 (u.world.calls ++ [Call.remove_all d r.1.isSome])
        u.world.cerr
      match r.1 with
      | some msg => Outcome.mk (.error (Thrown.terminate msg)) u.self w1
      | none => Outcome.mk (.ok ()) u.self w1
    | none => Outcome.mk (.ok ()) u.self u.world

/-- `SharedLibrary::SharedLibrary(lib_name_, directory_to_delete_)`: the
member initialisers, then `Load(lib_name)`.  The handle starts as `nullptr`:
its initialiser is part of the class declaration, and the spec's data model
has the handle unset while no library is loaded. -/
def ctor (win32 : Bool) (P : OS σ) (lib_name_ : String)
    (directory_to_delete_ : Option String) (w : World σ) : Outcome σ Unit :=
  let self := SharedLibrary.mk lib_name_ directory_to_delete_ 0
  Load win32 P self self.lib_name w

end SharedLibrary

/-! ## Vocabulary for the statements -/

section Vocabulary

variable {σ : Type}

/-- The handle the platform loader hands back when `Load` invokes it for
`lib_name_` from OS state `os`. -/
def loaderResult (win32 : Bool) (P : OS σ) (os : σ) (lib_name_ : String) : Nat :=
  if win32 then (P.LoadLibrary os (c_str lib_name_)).1
  else (P.dlopen os (c_str lib_name_) DlFlag.RTLD_NOW).1

/-- The loader call `Load` issues for `lib_name_` from OS state `os`. -/
def openCall (win32 : Bool) (P : OS σ) (os : σ) (lib_name_ : String) : Call :=
  if win32 then Call.LoadLibrary (c_str lib_name_) (P.LoadLibrary os (c_str lib_name_)).1
  else Call.dlopen (c_str lib_name_) DlFlag.RTLD_NOW
    (P.dlopen os (c_str lib_name_) DlFlag.RTLD_NOW).1

/-- The release call `Unload` issues for handle `h` from OS state `os`. -/
def releaseCall (win32 : Bool) (P : OS σ) (os : σ) (h : Nat) : Call :=
  if win32 then Call.FreeLibrary h (P.FreeLibrary os h).1
  else Call.dlclose h (P.dlclose os h).1

/-- The platform reports that releasing `h` from OS state `os` failed:
`FreeLibrary` answers `FALSE`, `dlclose` answers non-zero. -/
def releaseFails (win32 : Bool) (P : OS σ) (os : σ) (h : Nat) : Prop :=
  if win32 then (P.FreeLibrary os h).1 = false else (P.dlclose os h).1 ≠ 0

/-- The address the platform symbol lookup hands back for `func_name` on
handle `h` from OS state `os`. -/
def lookupResult (win32 : Bool) (P : OS σ) (os : σ) (h : Nat) (func_name : String) :
    Nat :=
  if win32 then (P.GetProcAddress os h (c_str func_name)).1
  else (P.dlsym os h (c_str func_name)).1

/-- The lookup call `GetRawFunction` issues for `func_name` on handle `h`. -/
def lookupCall (win32 : Bool) (P : OS σ) (os : σ) (h : Nat) (func_name : String) :
    Call :=
  if win32 then
    Call.GetProcAddress h (c_str func_name) (P.GetProcAddress os h (c_str func_name)).1
  else Call.dlsym h (c_str func_name) (P.dlsym os h (c_str func_name)).1

/-- The call is a symbol lookup (`dlsym` or `GetProcAddress`). -/
def Call.isLookup : Call → Bool
  | Call.dlsym _ _ _ => true
  | Call.GetProcAddress _ _ _ => true
  | _ => false

/-- The call asks the platform to release a handle (`dlclose`/`FreeLibrary`). -/
def Call.isRelease : Call → Bool
  | Call.dlclose _ _ => true
  | Call.FreeLibrary _ _ => true
  | _ => false

/-- The call is a filesystem removal. -/
def Call.isRemoval : Call → Bool
  | Call.remove_all _ _ => true
  | _ => false

/-- The call is a loader call that handed back a non-null handle. -/
def Call.isOpened : Call → Bool
  | Call.dlopen _ _ h => h != 0
  | Call.LoadLibrary _ h => h != 0
  | _ => false

/-- Message `msg` carries `part`: `part` occurs in it as a contiguous run of
characters. -/
def carries (msg part : String) : Prop := part.data <:+: msg.data

instance (msg part : String) : Decidable (carries msg part) := by
  unfold carries; infer_instance

/-- The string holds no NUL character. -/
def noNul (s : String) : Prop := ∀ c ∈ s.data, c ≠ Char.ofNat 0

instance (s : String) : Decidable (noNul s) := by
  unfold noNul; infer_instance

/-- A platform that gives the same answer to every call of a kind: loader
and lookup answer `h` and `addr`, `dlclose` answers `rc`, `FreeLibrary`
answers `ok`, `dlerror` answers `text`, `remove_all` answers `rm`. -/
def fixedOS (h : Nat) (rc : Int) (ok : Bool) (addr : Nat) (text : Option String)
    (rm : Option String) : OS Unit where
  dlopen := fun s _ _ => (h, s)
  dlclose := fun s _ => (rc, s)
  dlsym := fun s _ _ => (addr, s)
  dlerror := fun s => (text, s)
  LoadLibrary := fun s _ => (h, s)
  FreeLibrary := fun s _ => (ok, s)
  GetProcAddress := fun s _ _ => (addr, s)
  remove_all := fun s _ => (rm, s)

/-- The world before any call was made. -/
def World.start : World Unit := World.mk () [] ""

/-- A call a client makes on a live instance. -/
inductive Op where
  | Load (lib_name_ : String)
  | Unload
  | GetRawFunction (func_name : String)
  deriving DecidableEq, Repr

/-- The instance and the world after one client call; a thrown exception is
caught by the client, who keeps the instance. -/
def step (win32 : Bool) (P : OS σ) (st : SharedLibrary × World σ) (op : Op) :
    SharedLibrary × World σ :=
  match op with
  | Op.Load p =>
    ((SharedLibrary.Load win32 P st.1 p st.2).self,
      (SharedLibrary.Load win32 P st.1 p st.2).world)
  | Op.Unload =>
    ((SharedLibrary.Unload win32 P st.1 st.2).self,
      (SharedLibrary.Unload win32 P st.1 st.2).world)
  | Op.GetRawFunction n =>
    ((SharedLibrary.GetRawFunction win32 P st.1 n st.2).self,
      (SharedLibrary.GetRawFunction win32 P st.1 n st.2).world)

/-- The instance and the world after a sequence of client calls. -/
def run (win32 : Bool) (P : OS σ) (st : SharedLibrary × World σ) (ops : List Op) :
    SharedLibrary × World σ :=
  ops.foldl (step win32 P) st

/-- Handles the trace shows as obtained and not yet handed back for
release are at most those the instance holds: successful loader calls
number at most the release calls, plus one when a handle is held. -/
def atMostOneOpen (st : SharedLibrary × World σ) : Prop :=
  st.2.calls.countP Call.isOpened ≤
    st.2.calls.countP Call.isRelease + (if st.1.lib = 0 then 0 else 1)

end Vocabulary

/-! ## Basic facts about `Unload` -/

section Lemmas

variable {σ : Type}

open SharedLibrary

theorem Unload_result (win32 : Bool) (P : OS σ) (self : SharedLibrary) (w : World σ) :
    (Unload win32 P self w).result = .ok () := by
  unfold Unload
  dsimp only
  split_ifs <;> rfl

theorem Unload_self (win32 : Bool) (P : OS σ) (self : SharedLibrary) (w : World σ) :
    (Unload win32 P self w).self = self := by
  unfold Unload
  dsimp only
  split_ifs <;> rfl

theorem Unload_calls (win32 : Bool) (P : OS σ) (self : SharedLibrary) (w : World σ) :
    (Unload win32 P self w).world.calls =
      w.calls ++ (if self.lib ≠ 0 then [releaseCall win32 P w.os self.lib] else []) := by
  unfold Unload releaseCall
  dsimp only
  split_ifs <;> simp

theorem Load_eq (win32 : Bool) (P : OS σ) (self : SharedLibrary) (p : String)
    (w : World σ) :
    Load win32 P self p w =
      (let u := Unload win32 P self w
       let h := loaderResult win32 P u.world.os p
       let s2 := SharedLibrary.mk p self.directory_to_delete h
       let calls := u.world.calls ++ [openCall win32 P u.world.os p]
       if win32 then
         if h = 0 then
           Outcome.mk (.error (runtime_error_string ("Could not load library " ++ p))) s2
             (World.mk (P.LoadLibrary u.world.os (c_str p)).2 calls u.world.cerr)
         else
           Outcome.mk (.ok ()) s2
             (World.mk (P.LoadLibrary u.world.os (c_str p)).2 calls u.world.cerr)
       else
         if h = 0 then
           let os1 := (P.dlopen u.world.os (c_str p) DlFlag.RTLD_NOW).2
           Outcome.mk (.error (runtime_error_c_str (P.dlerror os1).1)) s2
             (World.mk (P.dlerror os1).2 (calls ++ [Call.dlerror (P.dlerror os1).1])
               u.world.cerr)
         else
           Outcome.mk (.ok ()) s2
             (World.mk (P.dlopen u.world.os (c_str p) DlFlag.RTLD_NOW).2 calls
               u.world.cerr)) := by
  have hr := Unload_result win32 P self w
  have hs := Unload_self win32 P self w
  unfold Load
  simp only [hr, hs]
  cases win32 <;> simp [loaderResult, openCall]

theorem GetRawFunction_eq (win32 : Bool) (P : OS σ) (self : SharedLibrary)
    (name : String) (w : World σ) :
    GetRawFunction win32 P self name w =
      (let r := lookupResult win32 P w.os self.lib name
       let calls := w.calls ++ [lookupCall win32 P w.os self.lib name]
       if win32 then
         if r = 0 then
           Outcome.mk
             (.error (runtime_error_string
               ("Could not find function " ++ name ++ " in library " ++ self.lib_name)))
             self
             (World.mk (P.GetProcAddress w.os self.lib (c_str name)).2 calls w.cerr)
         else
           Outcome.mk (.ok r) self
             (World.mk (P.GetProcAddress w.os self.lib (c_str name)).2 calls w.cerr)
       else
         if r = 0 then
           let os1 := (P.dlsym w.os self.lib (c_str name)).2
           Outcome.mk (.error (runtime_error_c_str (P.dlerror os1).1)) self
             (World.mk (P.dlerror os1).2 (calls ++ [Call.dlerror (P.dlerror os1).1])
               w.cerr)
         else
           Outcome.mk (.ok r) self
             (World.mk (P.dlsym w.os self.lib (c_str name)).2 calls w.cerr)) := by
  unfold GetRawFunction
  cases win32 <;> simp [lookupResult, lookupCall]

theorem lookupCall_isLookup (win32 : Bool) (P : OS σ) (os : σ) (h : Nat)
    (name : String) : (lookupCall win32 P os h name).isLookup = true := by
  cases win32 <;> rfl

theorem GetRawFunction_lookups (win32 : Bool) (P : OS σ) (self : SharedLibrary)
    (name : String) (w : World σ) :
    (GetRawFunction win32 P self name w).world.calls.filter Call.isLookup =
      w.calls.filter Call.isLookup ++ [lookupCall win32 P w.os self.lib name] := by
  have hd : ∀ t : Option String, (Call.dlerror t).isLookup = false := fun _ => rfl
  rw [GetRawFunction_eq]
  cases win32 <;> simp only [] <;> split_ifs <;>
    simp [List.filter_append, lookupCall_isLookup, hd]

theorem GetRawFunction_self (win32 : Bool) (P : OS σ) (self : SharedLibrary)
    (name : String) (w : World σ) :
    (GetRawFunction win32 P self name w).self = self := by
  rw [GetRawFunction_eq]
  cases win32 <;> simp only [] <;> split_ifs <;> rfl

theorem takeWhile_prefix_append {α : Type} (p : α → Bool) (l1 l2 : List α) :
    l1.takeWhile p <+: (l1 ++ l2).takeWhile p := by
  induction l1 with
  | nil => exact List.nil_prefix
  | cons a l ih =>
    by_cases ha : p a = true
    · simpa [List.takeWhile_cons, ha, List.prefix_cons_inj] using ih
    · simp [List.takeWhile_cons, ha]

theorem c_str_append_of_noNul (a b : String) (h : noNul a) :
    c_str (a ++ b) = a ++ c_str b := by
  have hp : ∀ c ∈ a.data, (fun c : Char => c != Char.ofNat 0) c = true := by
    intro c hc
    simpa using h c hc
  apply String.ext
  simp only [c_str, String.data_append]
  exact List.takeWhile_append_of_pos hp

theorem c_str_of_noNul (s : String) (h : noNul s) : c_str s = s := by
  apply String.ext
  simp only [c_str]
  rw [List.takeWhile_eq_self_iff]
  intro c hc
  simpa using h c hc

theorem carries_c_str_name (pre name rest : String) (h : noNul pre) :
    carries (c_str (pre ++ name ++ rest)) (c_str name) := by
  rw [String.append_assoc, c_str_append_of_noNul pre _ h]
  unfold carries
  obtain ⟨t, ht⟩ := takeWhile_prefix_append (fun c : Char => c != Char.ofNat 0)
    name.data rest.data
  refine ⟨pre.data, t, ?_⟩
  simp only [c_str, String.data_append] at ht ⊢
  rw [List.append_assoc, ht]

theorem Load_directory (win32 : Bool) (P : OS σ) (self : SharedLibrary)
    (p : String) (w : World σ) :
    (Load win32 P self p w).self.directory_to_delete = self.directory_to_delete := by
  rw [Load_eq]
  cases win32 <;> simp only [] <;> split_ifs <;> rfl

theorem GetRawFunction_counts (win32 : Bool) (P : OS σ) (self : SharedLibrary)
    (name : String) (w : World σ) :
    (GetRawFunction win32 P self name w).world.calls.countP Call.isOpened =
        w.calls.countP Call.isOpened ∧
      (GetRawFunction win32 P self name w).world.calls.countP Call.isRelease =
        w.calls.countP Call.isRelease := by
  rw [GetRawFunction_eq]
  cases win32 <;> simp only [] <;> split_ifs <;>
    simp [lookupCall, Call.isOpened, Call.isRelease, List.countP_append]

theorem Load_lib (win32 : Bool) (P : OS σ) (self : SharedLibrary) (p : String)
    (w : World σ) :
    (Load win32 P self p w).self.lib =
      loaderResult win32 P (Unload win32 P self w).world.os p := by
  rw [Load_eq]
  cases win32 <;> simp only [] <;> split_ifs <;> rfl

theorem Load_counts (win32 : Bool) (P : OS σ) (self : SharedLibrary) (p : String)
    (w : World σ) :
    (Load win32 P self p w).world.calls.countP Call.isOpened =
        w.calls.countP Call.isOpened +
          (if loaderResult win32 P (Unload win32 P self w).world.os p = 0 then 0 else 1) ∧
      (Load win32 P self p w).world.calls.countP Call.isRelease =
        w.calls.countP Call.isRelease + (if self.lib = 0 then 0 else 1) := by
  have hc := Unload_calls win32 P self w
  rw [Load_eq]
  by_cases hl : self.lib = 0
  · simp only [hl, ne_eq, not_true_eq_false, if_false, List.append_nil] at hc
    cases win32 <;> simp only [] <;> split_ifs with hz <;>
      simp_all [loaderResult, openCall, Call.isOpened, Call.isRelease,
        List.countP_append, List.countP_cons]
  · simp only [hl, ne_eq, not_false_eq_true, if_true] at hc
    cases win32 <;> simp only [] <;> split_ifs with hz <;>
      simp_all [loaderResult, openCall, releaseCall, Call.isOpened, Call.isRelease,
        List.countP_append, List.countP_cons]

theorem Unload_counts (win32 : Bool) (P : OS σ) (self : SharedLibrary) (w : World σ) :
    (Unload win32 P self w).world.calls.countP Call.isOpened =
        w.calls.countP Call.isOpened ∧
      (Unload win32 P self w).world.calls.countP Call.isRelease =
        w.calls.countP Call.isRelease + (if self.lib = 0 then 0 else 1) := by
  rw [Unload_calls]
  by_cases hl : self.lib = 0
  · simp [hl]
  · cases win32 <;>
      simp [hl, releaseCall, Call.isOpened, Call.isRelease, List.countP_append,
        List.countP_cons]

theorem step_atMostOneOpen (win32 : Bool) (P : OS σ) (st : SharedLibrary × World σ)
    (op : Op) (h : atMostOneOpen st) : atMostOneOpen (step win32 P st op) := by
  unfold atMostOneOpen at *
  cases op with
  | Load p =>
    have hk := Load_counts win32 P st.1 p st.2
    have hlib := Load_lib win32 P st.1 p st.2
    simp only [step, hk.1, hk.2, hlib]
    split_ifs at h ⊢ <;> omega
  | Unload =>
    have hk := Unload_counts win32 P st.1 st.2
    have hs := Unload_self win32 P st.1 st.2
    simp only [step, hs, hk.1, hk.2]
    split_ifs at h ⊢ <;> omega
  | GetRawFunction n =>
    have hk := GetRawFunction_counts win32 P st.1 n st.2
    have hs := GetRawFunction_self win32 P st.1 n st.2
    simp only [step, hs, hk.1, hk.2]
    exact h

/-- Over any sequence of `Load`, `Unload` and `GetRawFunction` calls on an
instance, the trace never shows more handles obtained than release requests
plus the one handle held. -/
theorem run_atMostOneOpen (win32 : Bool) (P : OS σ) (ops : List Op)
    (st : SharedLibrary × World σ) (h : atMostOneOpen st) :
    atMostOneOpen (run win32 P st ops) := by
  induction ops generalizing st with
  | nil => exact h
  | cons op ops ih => exact ih _ (step_atMostOneOpen win32 P st op h)

/-- The cleanup directory given to the constructor is the one the instance
has after any sequence of `Load`, `Unload` and `GetRawFunction` calls. -/
theorem run_directory (win32 : Bool) (P : OS σ) (ops : List Op)
    (st : SharedLibrary × World σ) :
    (run win32 P st ops).1.directory_to_delete = st.1.directory_to_delete := by
  induction ops generalizing st with
  | nil => rfl
  | cons op ops ih =>
    have hstep : (step win32 P st op).1.directory_to_delete =
        st.1.directory_to_delete := by
      cases op with
      | Load p => exact Load_directory win32 P st.1 p st.2
      | Unload => simp [step, Unload_self]
      | GetRawFunction n => simp [step, GetRawFunction_self]
    exact (ih (step win32 P st op)).trans hstep

end Lemmas

/-! ## Claims -/

section Claims

variable {σ : Type}

open SharedLibrary

/-- C1: from any instance state (loaded or not), when the platform loader
hands back a null handle for `p`, `Load(p)` throws, and afterwards the
native handle of the instance is `nullptr`.  What is thrown is a
`runtime_error` built from the constructed text naming the path under
`WIN32`, and from the answer of `dlerror()` otherwise. -/
theorem Load_null_handle_fails (win32 : Bool) (P : OS σ) (self : SharedLibrary)
    (p : String) (w : World σ)
    (hnull : loaderResult win32 P (Unload win32 P self w).world.os p = 0) :
    (∃ msg, (Load win32 P self p w).result = .error msg) ∧
    (Load win32 P self p w).self.lib = 0 ∧
    (Load win32 P self p w).result =
      .error (if win32 then runtime_error_string ("Could not load library " ++ p)
        else runtime_error_c_str (P.dlerror
          (P.dlopen (Unload win32 P self w).world.os (c_str p) DlFlag.RTLD_NOW).2).1) := by
  rw [Load_eq]
  cases win32 <;> simp [hnull]

theorem Load_null_handle_fails_witness :
    loaderResult false (fixedOS 0 0 true 0 (some "cannot open shared object file") none)
        (Unload false (fixedOS 0 0 true 0 (some "cannot open shared object file") none)
          (SharedLibrary.mk "libold.so" none 7) World.start).world.os "missing.so" = 0 ∧
      (Load false (fixedOS 0 0 true 0 (some "cannot open shared object file") none)
        (SharedLibrary.mk "libold.so" none 7) "missing.so" World.start).self.lib = 0 :=
  ⟨rfl, (Load_null_handle_fails false
    (fixedOS 0 0 true 0 (some "cannot open shared object file") none)
    (SharedLibrary.mk "libold.so" none 7) "missing.so" World.start rfl).2.1⟩

/-- C3: from any instance state, when the platform loader hands back a
non-null handle `h` for `p`, `Load(p)` returns normally and afterwards the
native handle is `h` and the stored path is `p`; a following
`GetRawFunction(name)` issues its lookup on `h`, and on nothing else, and
returns what the platform answers for `h`. -/
theorem Load_success_installs_handle (win32 : Bool) (P : OS σ)
    (self : SharedLibrary) (p : String) (w : World σ)
    (hok : loaderResult win32 P (Unload win32 P self w).world.os p ≠ 0) :
    (Load win32 P self p w).result = .ok () ∧
    (Load win32 P self p w).self.lib =
      loaderResult win32 P (Unload win32 P self w).world.os p ∧
    (Load win32 P self p w).self.lib_name = p ∧
    ∀ (name : String) (w1 : World σ),
      ((GetRawFunction win32 P (Load win32 P self p w).self name w1).world.calls.filter
          Call.isLookup =
        w1.calls.filter Call.isLookup ++
          [lookupCall win32 P w1.os
            (loaderResult win32 P (Unload win32 P self w).world.os p) name]) ∧
      (lookupResult win32 P w1.os
          (loaderResult win32 P (Unload win32 P self w).world.os p) name ≠ 0 →
        (GetRawFunction win32 P (Load win32 P self p w).self name w1).result =
          .ok (lookupResult win32 P w1.os
            (loaderResult win32 P (Unload win32 P self w).world.os p) name)) := by
  have hlib : (Load win32 P self p w).self.lib =
      loaderResult win32 P (Unload win32 P self w).world.os p := by
    rw [Load_eq]
    cases win32 <;> simp [hok]
  refine ⟨?_, hlib, ?_, ?_⟩
  · rw [Load_eq]
    cases win32 <;> simp [hok]
  · rw [Load_eq]
    cases win32 <;> simp [hok]
  · intro name w1
    constructor
    · rw [GetRawFunction_lookups, hlib]
    · intro hr
      rw [GetRawFunction_eq, hlib]
      cases win32 <;> simp [hr]

theorem Load_success_installs_handle_witness :
    loaderResult false (fixedOS 9 0 true 4096 (some "") none)
        (Unload false (fixedOS 9 0 true 4096 (some "") none)
          (SharedLibrary.mk "libold.so" none 7) World.start).world.os "libadd.so" ≠ 0 ∧
      (Load false (fixedOS 9 0 true 4096 (some "") none)
        (SharedLibrary.mk "libold.so" none 7) "libadd.so" World.start).self =
        SharedLibrary.mk "libadd.so" none 9 :=
  ⟨by decide, by
    have h := Load_success_installs_handle false (fixedOS 9 0 true 4096 (some "") none)
      (SharedLibrary.mk "libold.so" none 7) "libadd.so" World.start (by decide)
    have h1 : (Load false (fixedOS 9 0 true 4096 (some "") none)
        (SharedLibrary.mk "libold.so" none 7) "libadd.so" World.start).self.lib = 9 :=
      h.2.1
    have h2 := h.2.2.1
    calc (Load false (fixedOS 9 0 true 4096 (some "") none)
          (SharedLibrary.mk "libold.so" none 7) "libadd.so" World.start).self
        = SharedLibrary.mk
            (Load false (fixedOS 9 0 true 4096 (some "") none)
              (SharedLibrary.mk "libold.so" none 7) "libadd.so" World.start).self.lib_name
            none
            (Load false (fixedOS 9 0 true 4096 (some "") none)
              (SharedLibrary.mk "libold.so" none 7) "libadd.so" World.start).self.lib := rfl
      _ = SharedLibrary.mk "libadd.so" none 9 := by rw [h1, h2]⟩

/-- C4: when the instance holds a handle `h` (non-null), the native calls
`Load(p)` adds to the trace start with the release of `h`, immediately
followed by the loader call for `p`; whatever follows is only the `dlerror`
query of a failed load.  So the release of the held handle precedes the
open, and nothing is opened before it. -/
theorem Load_releases_held_handle_first (win32 : Bool) (P : OS σ)
    (self : SharedLibrary) (p : String) (w : World σ) (hheld : self.lib ≠ 0) :
    ∃ rest : List Call,
      (Load win32 P self p w).world.calls =
        w.calls ++
          (releaseCall win32 P w.os self.lib ::
            openCall win32 P (Unload win32 P self w).world.os p :: rest) ∧
      ∀ c ∈ rest, ∃ text, c = Call.dlerror text := by
  have hc := Unload_calls win32 P self w
  simp only [hheld, ne_eq, not_false_eq_true, if_true] at hc
  rw [Load_eq]
  cases win32
  · by_cases hz : loaderResult false P (Unload false P self w).world.os p = 0
    · refine ⟨[Call.dlerror (P.dlerror (P.dlopen (Unload false P self w).world.os
        (c_str p) DlFlag.RTLD_NOW).2).1], ?_, ?_⟩
      · simp [hz, hc]
      · intro c hcm
        exact ⟨_, List.mem_singleton.mp hcm⟩
    · exact ⟨[], by simp [hz, hc], by simp⟩
  · by_cases hz : loaderResult true P (Unload true P self w).world.os p = 0
    · exact ⟨[], by simp [hz, hc], by simp⟩
    · exact ⟨[], by simp [hz, hc], by simp⟩

theorem Load_releases_held_handle_first_witness :
    (SharedLibrary.mk "libold.so" none 7).lib ≠ 0 ∧
      ∃ rest : List Call,
        (Load false (fixedOS 9 0 true 4096 (some "") none)
          (SharedLibrary.mk "libold.so" none 7) "libadd.so" World.start).world.calls =
          World.start.calls ++
            (Call.dlclose 7 0 :: Call.dlopen "libadd.so" DlFlag.RTLD_NOW 9 :: rest) ∧
        ∀ c ∈ rest, ∃ text, c = Call.dlerror text :=
  ⟨by decide, Load_releases_held_handle_first false (fixedOS 9 0 true 4096 (some "") none)
    (SharedLibrary.mk "libold.so" none 7) "libadd.so" World.start (by decide)⟩

/-- C10: from any instance state and for every path `p`, once `Load(p)` has
returned or thrown, the stored path is `p`; the loader call found in the
trace is the one for `p`, so the path was stored whether or not the load
succeeded. -/
theorem Load_stores_path (win32 : Bool) (P : OS σ) (self : SharedLibrary)
    (p : String) (w : World σ) :
    (Load win32 P self p w).self.lib_name = p ∧
    openCall win32 P (Unload win32 P self w).world.os p ∈
      (Load win32 P self p w).world.calls := by
  rw [Load_eq]
  cases win32 <;> simp only [] <;> split_ifs <;> simp

/-- C6: when the native handle is `nullptr`, `Unload` returns normally,
makes no native call at all (so no release call), writes nothing to `cerr`,
and leaves handle, stored path, cleanup directory and OS state as they
were. -/
theorem Unload_unset_is_noop (win32 : Bool) (P : OS σ) (self : SharedLibrary)
    (w : World σ) (hunset : self.lib = 0) :
    (Unload win32 P self w).result = .ok () ∧
    (Unload win32 P self w).world.calls = w.calls ∧
    (Unload win32 P self w).world.cerr = w.cerr ∧
    (Unload win32 P self w).world.os = w.os ∧
    (Unload win32 P self w).self.lib = self.lib ∧
    (Unload win32 P self w).self.lib_name = self.lib_name ∧
    (Unload win32 P self w).self.directory_to_delete = self.directory_to_delete := by
  unfold Unload
  simp [hunset]

theorem Unload_unset_is_noop_witness :
    (SharedLibrary.mk "missing.so" (some "/tmp/scratch") 0).lib = 0 ∧
      (Unload false (fixedOS 0 1 false 0 (some "") none)
        (SharedLibrary.mk "missing.so" (some "/tmp/scratch") 0) World.start).world.calls
        = [] :=
  ⟨rfl, (Unload_unset_is_noop false (fixedOS 0 1 false 0 (some "") none)
    (SharedLibrary.mk "missing.so" (some "/tmp/scratch") 0) World.start rfl).2.1⟩

/-- C5 (the code at a failing input): with handle 7 loaded, `Unload` leaves
the handle at 7, and a second `Unload` asks the platform to release handle
7 a second time: two `dlclose(7)` calls, where one `Unload` issues one. -/
theorem Unload_twice_releases_twice :
    (Unload false (fixedOS 7 0 true 4096 (some "") none)
      (SharedLibrary.mk "libadd.so" none 7) World.start).self.lib = 7 ∧
    (Unload false (fixedOS 7 0 true 4096 (some "") none)
      (SharedLibrary.mk "libadd.so" none 7) World.start).world.calls =
      [Call.dlclose 7 0] ∧
    (Unload false (fixedOS 7 0 true 4096 (some "") none)
      (Unload false (fixedOS 7 0 true 4096 (some "") none)
        (SharedLibrary.mk "libadd.so" none 7) World.start).self
      (Unload false (fixedOS 7 0 true 4096 (some "") none)
        (SharedLibrary.mk "libadd.so" none 7) World.start).world).world.calls =
      [Call.dlclose 7 0, Call.dlclose 7 0] := by
  refine ⟨rfl, rfl, rfl⟩

/-- C7 (the code at a failing input): in the `WIN32` build, with handle 7
loaded and `FreeLibrary` reporting failure, `Unload` writes nothing to
`cerr`: the result of `FreeLibrary` is discarded, where the POSIX arm of
the same function tests the result of `dlclose` and writes the
diagnostic. -/
theorem Unload_win32_failure_is_silent :
    (SharedLibrary.mk "add.dll" none 7).lib ≠ 0 ∧
    releaseFails true (fixedOS 7 0 false 4096 (some "") none) World.start.os 7 ∧
    (Unload true (fixedOS 7 0 false 4096 (some "") none)
      (SharedLibrary.mk "add.dll" none 7) World.start).world.cerr = "" ∧
    (Unload true (fixedOS 7 0 false 4096 (some "") none)
      (SharedLibrary.mk "add.dll" none 7) World.start).world.calls =
      [Call.FreeLibrary 7 false] := by
  refine ⟨by decide, rfl, rfl, rfl⟩

/-- What `Unload` does meet in both builds and in the POSIX arm: it never
throws, whatever the instance state and whatever the platform answers; and
in the POSIX build, when a library is loaded and `dlclose` answers
non-zero, it appends the line `Failed to close library <stored path,
quoted>` to `cerr` and returns normally. -/
theorem Unload_never_throws_posix_diagnostic (win32 : Bool) (P : OS σ)
    (self : SharedLibrary) (w : World σ) :
    (Unload win32 P self w).result = .ok () ∧
    (win32 = false → self.lib ≠ 0 → (P.dlclose w.os self.lib).1 ≠ 0 →
      (Unload win32 P self w).world.cerr =
        w.cerr ++ "Failed to close library " ++ quoted self.lib_name ++ "\n") := by
  refine ⟨Unload_result win32 P self w, ?_⟩
  intro hw hl hrc
  unfold Unload
  simp [hw, hl, hrc]

/-- C2: `GetRawFunction(name)` (the untyped body of `GetFunction`) throws
exactly when the platform lookup of `name` on the current handle answers a
null address; otherwise it returns the address the platform answered; and
it adds one lookup call to the trace, the one on the current handle, so
there is no second or fallback lookup.  This holds for every instance
state, in particular for every loaded instance. -/
theorem GetRawFunction_fails_iff_null (win32 : Bool) (P : OS σ)
    (self : SharedLibrary) (name : String) (w : World σ) :
    ((∃ msg, (GetRawFunction win32 P self name w).result = .error msg) ↔
      lookupResult win32 P w.os self.lib name = 0) ∧
    (lookupResult win32 P w.os self.lib name ≠ 0 →
      (GetRawFunction win32 P self name w).result =
        .ok (lookupResult win32 P w.os self.lib name)) ∧
    (GetRawFunction win32 P self name w).world.calls.filter Call.isLookup =
      w.calls.filter Call.isLookup ++ [lookupCall win32 P w.os self.lib name] := by
  refine ⟨?_, ?_, GetRawFunction_lookups win32 P self name w⟩
  · rw [GetRawFunction_eq]
    by_cases hr : lookupResult win32 P w.os self.lib name = 0
    · cases win32 <;> simp [hr]
    · cases win32 <;> simp [hr]
  · intro hr
    rw [GetRawFunction_eq]
    cases win32 <;> simp [hr]

theorem GetRawFunction_fails_iff_null_witness :
    lookupResult false (fixedOS 7 0 true 4096 (some "") none) World.start.os 7 "add" ≠ 0 ∧
      (GetRawFunction false (fixedOS 7 0 true 4096 (some "") none)
        (SharedLibrary.mk "libadd.so" none 7) "add" World.start).result = .ok 4096 :=
  ⟨by decide, (GetRawFunction_fails_iff_null false (fixedOS 7 0 true 4096 (some "") none)
    (SharedLibrary.mk "libadd.so" none 7) "add" World.start).2.1 (by decide)⟩

/-- C8: the native calls the destructor adds to the trace are, in this
order: the release call of `Unload` when a handle is held (none otherwise),
then one `remove_all` of the cleanup directory when the instance has one,
and no removal when it has none; the removal runs on the OS state that
`Unload` left.  The cleanup directory of an instance is the one given to
its constructor. -/
theorem dtor_unloads_then_removes (win32 : Bool) (P : OS σ) (self : SharedLibrary)
    (w : World σ) :
    (dtor win32 P self w).world.calls =
      (Unload win32 P self w).world.calls ++
        (match self.directory_to_delete with
          | some d =>
            [Call.remove_all d (P.remove_all (Unload win32 P self w).world.os d).1.isSome]
          | none => []) ∧
    (Unload win32 P self w).world.calls =
      w.calls ++ (if self.lib ≠ 0 then [releaseCall win32 P w.os self.lib] else []) ∧
    (dtor win32 P self w).world.calls.filter Call.isRemoval =
      w.calls.filter Call.isRemoval ++
        (match self.directory_to_delete with
          | some d =>
            [Call.remove_all d (P.remove_all (Unload win32 P self w).world.os d).1.isSome]
          | none => []) ∧
    ∀ (lib_name_ : String) (dir : Option String) (w0 : World σ),
      (ctor win32 P lib_name_ dir w0).self.directory_to_delete = dir := by
  have hr := Unload_result win32 P self w
  have hs := Unload_self win32 P self w
  have hc := Unload_calls win32 P self w
  have hcalls : (dtor win32 P self w).world.calls =
      (Unload win32 P self w).world.calls ++
        (match self.directory_to_delete with
          | some d =>
            [Call.remove_all d (P.remove_all (Unload win32 P self w).world.os d).1.isSome]
          | none => []) := by
    unfold dtor
    simp only [hr, hs]
    cases hd : self.directory_to_delete with
    | none => simp
    | some d =>
      simp only []
      cases hrm : (P.remove_all (Unload win32 P self w).world.os d).1 <;> simp
  refine ⟨hcalls, hc, ?_, ?_⟩
  · rw [hcalls, hc]
    have hrel : (releaseCall win32 P w.os self.lib).isRemoval = false := by
      cases win32 <;> rfl
    cases hd : self.directory_to_delete with
    | none => by_cases hl : self.lib = 0 <;> simp [hl, hrel, List.filter_append]
    | some d =>
      have hrm : ∀ b : Bool, (Call.remove_all d b).isRemoval = true := fun _ => rfl
      by_cases hl : self.lib = 0 <;>
        simp [hl, hrel, hrm, List.filter_append, List.filter_cons]
  · intro lib_name_ dir w0
    unfold ctor
    exact Load_directory win32 P _ _ w0

end Claims

end ngstd
